import Mathlib

/-!
# RulesPlugin (src/src/rules_plugin.cpp)

A shallow embedding of the plugin facade `rules::RulesPlugin`: its lifecycle
methods `initialize`, `start`, `stop`, `metadata` and the private helpers
`registerRoutes` and `registerQmlTypes`.

The plugin talks to three things that are visible from outside: the navigation
collaborator, the menu collaborator and the logger.  Every such effect is
appended to a chronological trace of `Event`s, so that "which calls were made,
in which order" becomes a statement about a list.

The entity store `orders::OrdersService` is declared in `orders_service.h`,
which is not among the sources; it is modelled from the specification.
-/

namespace rules

/-! ## Data model -/

/-- The menu descriptor `mpf::MenuItem` filled in by `registerRoutes`. -/
structure MenuItem where
  id : String
  label : String
  icon : String
  route : String
  pluginId : String
  order : Int
  group : String
  deriving DecidableEq, Repr

/-- A dynamically typed field value (`QVariant`); the source only ever builds
strings and integers. -/
inductive QVariant where
  | str (s : String)
  | int (n : Int)
  deriving DecidableEq, Repr

/-- A field mapping (`QVariantMap`), kept as an association list in the order
the initializer list of the source gives the keys. -/
abbrev QVariantMap := List (String × QVariant)

/-- Severity of a log line: `MPF_LOG_DEBUG`, `MPF_LOG_INFO`, `MPF_LOG_WARNING`. -/
inductive LogLevel where
  | debug
  | info
  | warning
  deriving DecidableEq, Repr

/-- An externally visible effect of the plugin or of a store client. -/
inductive Event where
  /-- The call `nav->registerRoute(route, url)`. -/
  | registerRoute (route url : String)
  /-- The call `menu->registerItem(item)`. -/
  | registerItem (item : MenuItem)
  /-- The call `menu->setBadge(id, text)`. -/
  | setBadge (id text : String)
  /-- The call `service->createOrder(fields)`. -/
  | createOrder (fields : QVariantMap)
  /-- An update request on the store. -/
  | updateOrder (id : Nat) (fields : QVariantMap)
  /-- A delete request on the store. -/
  | deleteOrder (id : Nat)
  /-- The call `qmlRegisterSingletonInstance(uri, major, minor, name, ...)`. -/
  | qmlRegisterSingletonInstance (uri : String) (major minor : Nat) (name : String)
  /-- The call `qmlRegisterType<T>(uri, major, minor, name)`. -/
  | qmlRegisterType (uri : String) (major minor : Nat) (name : String)
  /-- A log line `MPF_LOG_<LEVEL>(tag, msg)`. -/
  | log (level : LogLevel) (tag msg : String)
  deriving DecidableEq, Repr

/-- The navigation collaborator `mpf::INavigation`.  Its only method used here,
`registerRoute`, returns nothing, so the object carries no behaviour. -/
inductive INavigation where
  | mk
  deriving DecidableEq, Repr

/-- The menu collaborator `mpf::IMenu`.  `registerItem` answers with a boolean;
the answer of an external object may depend on everything that happened
before the call, so it is a function of the trace so far and of the item. -/
structure IMenu where
  registerItem : List Event → MenuItem → Bool

/-- The host registry `mpf::ServiceRegistry`: `get<T>()` yields the service or
a null pointer. -/
structure ServiceRegistry where
  navigation : Option INavigation
  menu : Option IMenu

/-- A slot connected to the `ordersChanged` signal.  The source connects one
kind of slot only: the lambda of `registerRoutes` that refreshes the badge. -/
inductive Slot where
  | updateBadge
  deriving DecidableEq, Repr

/-- Modelled from the spec: the entity record owned by `orders::OrdersService`
(`orders_service.h` is missing).  An entity has a store-assigned identifier
and an open field mapping. -/
structure Order where
  id : Nat
  fields : QVariantMap
  deriving DecidableEq, Repr

/-- Modelled from the spec: the state of `orders::OrdersService`
(`orders_service.h` is missing): the ordered collection of entities, the next
identifier to hand out (identifiers are never reused), and the connections on
its `ordersChanged` signal in the order they were made. -/
structure OrdersService where
  orders : List Order
  nextId : Nat
  ordersChanged : List Slot
  deriving DecidableEq, Repr

/-- The fields of `RulesPlugin`: `m_registry` is a raw pointer and
`m_ordersService` a `unique_ptr`, both null until `initialize` runs. -/
structure RulesPlugin where
  m_registry : Option ServiceRegistry
  m_ordersService : Option OrdersService

/-- The plugin together with the trace of effects observed so far. -/
structure World where
  plugin : RulesPlugin
  trace : List Event

/-! ## The store (modelled from the specification) -/

/-- Modelled from the spec: the constructor of `orders::OrdersService`
(missing): a new store holds no entity and has no subscriber. -/
def OrdersService.new : OrdersService :=
  { orders := [], nextId := 0, ordersChanged := [] }

/-- Modelled from the spec: `getOrderCount()` of the missing
`orders::OrdersService`: `count()` is the size of the live entity set. -/
def OrdersService.getOrderCount (s : OrdersService) : Nat :=
  s.orders.length

/-- Modelled from the spec: the state change of `create(fields)` of the missing
`orders::OrdersService`: a new unique id is allocated and the entity is
inserted at the end of the order; it always succeeds. -/
def OrdersService.insert (s : OrdersService) (fields : QVariantMap) : OrdersService :=
  { s with orders := s.orders ++ [{ id := s.nextId, fields := fields }],
           nextId := s.nextId + 1 }

/-- Replace the value of `key` in a field mapping, or add the key at the end. -/
def setField (key : String) (v : QVariant) : QVariantMap → QVariantMap
  | [] => [(key, v)]
  | (k, x) :: rest => if k = key then (k, v) :: rest else (k, x) :: setField key v rest

/-- Modelled from the spec: the merge done by `update`: supplied keys replace
matching keys, the others are left untouched. -/
def mergeFields (old new : QVariantMap) : QVariantMap :=
  new.foldl (fun acc kv => setField kv.1 kv.2 acc) old

/-- Modelled from the spec: the state change of `update(id, fields)` of the
missing `orders::OrdersService`; `none` is `NotFound`. -/
def OrdersService.modify (s : OrdersService) (id : Nat) (fields : QVariantMap) :
    Option OrdersService :=
  if s.orders.any (fun o => o.id = id) then
    let patch := fun (o : Order) =>
      if o.id = id then { o with fields := mergeFields o.fields fields } else o
    some { s with orders := s.orders.map patch }
  else none

/-- Modelled from the spec: the state change of `delete(id)` of the missing
`orders::OrdersService`; `none` is `NotFound`. -/
def OrdersService.erase (s : OrdersService) (id : Nat) : Option OrdersService :=
  if s.orders.any (fun o => o.id = id) then
    some { s with orders := s.orders.filter (fun o => o.id ≠ id) }
  else none

/-! ## Effects -/

/-- Append one event to the trace. -/
def World.record (w : World) (e : Event) : World :=
  { w with trace := w.trace ++ [e] }

/-- The macro `MPF_LOG_INFO(tag, msg)`. -/
def World.logInfo (w : World) (tag msg : String) : World :=
  w.record (.log .info tag msg)

/-- The macro `MPF_LOG_DEBUG(tag, msg)`. -/
def World.logDebug (w : World) (tag msg : String) : World :=
  w.record (.log .debug tag msg)

/-- The macro `MPF_LOG_WARNING(tag, msg)`. -/
def World.logWarning (w : World) (tag msg : String) : World :=
  w.record (.log .warning tag msg)

/-- Translation `QObject::tr`: without an installed translator the source text is returned. -/
def tr (s : String) : String := s

/-- Conversion `QString::number(int)`: the decimal rendering of the count. -/
def QString.number (n : Nat) : String := toString n

/-- Run one connected slot.  `updateBadge` is the lambda of `registerRoutes`:
`menu->setBadge("rules", QString::number(m_ordersService->getOrderCount()))`.
The lambda lives in a connection of the plugin's own store, so the store it
reads is the one that emits, passed here as `s`. -/
def Slot.invoke (slot : Slot) (s : OrdersService) (w : World) : World :=
  match slot with
  | .updateBadge => w.record (.setBadge "rules" (QString.number s.getOrderCount))

/-- Modelled from the spec: emission of `ordersChanged` (the `Changed` channel):
all connected slots fire synchronously, in connection order, before the
mutating call returns. -/
def emitOrdersChanged (s : OrdersService) (w : World) : World :=
  s.ordersChanged.foldl (fun acc slot => slot.invoke s acc) w

/-- Store `s` as the plugin's service. -/
def World.setService (w : World) (s : OrdersService) : World :=
  { w with plugin := { w.plugin with m_ordersService := some s } }

/-- Modelled from the spec: `m_ordersService->createOrder(fields)` on the missing
`orders::OrdersService`: insert, then emit `ordersChanged`.  Calling through a
null `m_ordersService` is undefined, rendered as `none`. -/
def World.createOrder (w : World) (fields : QVariantMap) : Option World :=
  match w.plugin.m_ordersService with
  | none => none
  | some s =>
    let s1 := s.insert fields
    some (emitOrdersChanged s1 ((w.record (.createOrder fields)).setService s1))

/-- Modelled from the spec: `update(id, fields)` on the missing
`orders::OrdersService`: on success merge and emit `ordersChanged`; on
`NotFound` nothing changes and nothing is emitted. -/
def World.updateOrder (w : World) (id : Nat) (fields : QVariantMap) : Option World :=
  match w.plugin.m_ordersService with
  | none => none
  | some s =>
    let w1 := w.record (.updateOrder id fields)
    match s.modify id fields with
    | none => some w1
    | some s1 => some (emitOrdersChanged s1 (w1.setService s1))

/-- Modelled from the spec: `delete(id)` on the missing `orders::OrdersService`:
on success remove and emit `ordersChanged`; on `NotFound` nothing changes and
nothing is emitted. -/
def World.deleteOrder (w : World) (id : Nat) : Option World :=
  match w.plugin.m_ordersService with
  | none => none
  | some s =>
    let w1 := w.record (.deleteOrder id)
    match s.erase id with
    | none => some w1
    | some s1 => some (emitOrdersChanged s1 (w1.setService s1))

/-- A mutation request a client of the store can issue. -/
inductive StoreOp where
  | create (fields : QVariantMap)
  | update (id : Nat) (fields : QVariantMap)
  | delete (id : Nat)
  deriving DecidableEq, Repr

/-- Perform one store request. -/
def World.apply (w : World) : StoreOp → Option World
  | .create fields => w.createOrder fields
  | .update id fields => w.updateOrder id fields
  | .delete id => w.deleteOrder id

/-- Perform a sequence of store requests, one after the other. -/
def World.applyAll (w : World) : List StoreOp → Option World
  | [] => some w
  | op :: ops => (w.apply op).bind (fun w1 => w1.applyAll ops)

/-! ## The plugin (from `rules_plugin.cpp`) -/

/-- Method `RulesPlugin::registerQmlTypes` (lines 131-140). -/
def registerQmlTypes (w : World) : World :=
  let w := w.record (.qmlRegisterSingletonInstance "Biiz.Rules" 1 0 "RulesService")
  let w := w.record (.qmlRegisterType "Biiz.Rules" 1 0 "RuleModel")
  w.logDebug "RulesPlugin" "Registered QML types"

/-- Method `RulesPlugin::initialize` (lines 22-36). -/
def initializePlugin (registry : Option ServiceRegistry) (w : World) : Bool × World :=
  let w := { w with plugin := { w.plugin with m_registry := registry } }
  let w := w.logInfo "RulesPlugin" "Initializing..."
  let w := w.setService OrdersService.new
  let w := registerQmlTypes w
  let w := w.logInfo "RulesPlugin" "Initialized successfully"
  (true, w)

/-- The menu item built in `registerRoutes` (lines 102-109). -/
def rulesMenuItem : MenuItem :=
  { id := "rules"
    label := tr "Rules"
    icon := "📋"
    route := "rules"
    pluginId := "com.biiz.rules"
    order := 20
    group := "Business" }

/-- The navigation block of `registerRoutes` (lines 90-97): with a navigation
service, two routes are registered and a debug line is logged; without one,
nothing happens. -/
def registerNavigation (registry : ServiceRegistry) (w : World) : World :=
  match registry.navigation with
  | some _ =>
    let w := w.record (.registerRoute "rules" "qrc:/Biiz/Rules/qml/OrdersPage.qml")
    let w := w.record (.registerRoute "rules/detail" "qrc:/Biiz/Rules/qml/OrderDetailPage.qml")
    w.logDebug "RulesPlugin" "Registered navigation routes (qrc:/Biiz/Rules/qml/)"
  | none => w

/-- The call `connect(m_ordersService.get(), &OrdersService::ordersChanged, this, slot)`:
the slot is added after the existing connections of the signal. -/
def OrdersService.connect (s : OrdersService) (slot : Slot) : OrdersService :=
  { s with ordersChanged := s.ordersChanged ++ [slot] }

/-- Method `RulesPlugin::registerRoutes` (lines 88-129).  Dereferencing a null
`m_registry` or a null `m_ordersService` is undefined, rendered as `none`. -/
def registerRoutes (w : World) : Option World :=
  match w.plugin.m_registry with
  | none => none
  | some registry =>
    let w := registerNavigation registry w
    match registry.menu with
    | some menu =>
      let item := rulesMenuItem
      let registered := menu.registerItem w.trace item
      let w := w.record (.registerItem item)
      if !registered then
        some (w.logWarning "RulesPlugin" "Failed to register menu item")
      else
        match w.plugin.m_ordersService with
        | none => none
        | some s =>
          let w := w.record (.setBadge "rules" (QString.number s.getOrderCount))
          let w := w.setService (s.connect .updateBadge)
          some (w.logDebug "RulesPlugin" "Registered menu item")
    | none => some (w.logWarning "RulesPlugin" "Menu service not available")

/-- The first demonstration entity of `start` (lines 46-52). -/
def ruleA : QVariantMap :=
  [("customerName", .str "Rule A"), ("productName", .str "Validation Rule"),
   ("quantity", .int 1), ("price", .int 0), ("status", .str "active")]

/-- The second demonstration entity of `start` (lines 54-60). -/
def ruleB : QVariantMap :=
  [("customerName", .str "Rule B"), ("productName", .str "Approval Rule"),
   ("quantity", .int 1), ("price", .int 0), ("status", .str "active")]

/-- Method `RulesPlugin::start` (lines 38-64). -/
def start (w : World) : Option (Bool × World) := do
  let w := w.logInfo "RulesPlugin" "Starting..."
  let w ← registerRoutes w
  let w ← w.createOrder ruleA
  let w ← w.createOrder ruleB
  let w := w.logInfo "RulesPlugin" "Started with sample rules"
  return (true, w)

/-- Method `RulesPlugin::stop` (lines 66-69). -/
def stop (w : World) : World :=
  w.logInfo "RulesPlugin" "Stopping..."

/-- A JSON value as held by `QJsonObject`. -/
inductive Json where
  | str (s : String)
  | num (n : Int)
  | arr (items : List Json)
  | obj (members : List (String × Json))

/-- Member lookup in a JSON object. -/
def Json.member (j : Json) (key : String) : Option Json :=
  match j with
  | .obj members => (members.find? (fun kv => kv.1 = key)).map (fun kv => kv.2)
  | _ => none

/-- The document parsed by `metadata` (lines 73-85). -/
def metadataDocument : Json :=
  .obj [
    ("id", .str "com.biiz.rules"),
    ("name", .str "Rules Plugin"),
    ("version", .str "1.0.0"),
    ("description", .str "Business rules management"),
    ("vendor", .str "Biiz"),
    ("requires", .arr [.obj [("type", .str "service"), ("id", .str "INavigation"),
                             ("min", .str "1.0")]]),
    ("provides", .arr [.str "RulesService"]),
    ("qmlModules", .arr [.str "Biiz.Rules"]),
    ("priority", .num 20)]

/-- Method `RulesPlugin::metadata` (lines 71-86), a `const` method: it returns the
parsed document and leaves the world as it is. -/
def metadata (w : World) : Json × World :=
  (metadataDocument, w)

/-! ## Observations on traces and worlds -/

/-- Whether an event is a call on the navigation or the menu collaborator. -/
def Event.isCollaboratorCall : Event → Bool
  | .registerRoute _ _ => true
  | .registerItem _ => true
  | .setBadge _ _ => true
  | _ => false

/-- The calls made on the navigation and menu collaborators, in order. -/
def collaboratorCalls (t : List Event) : List Event :=
  t.filter Event.isCollaboratorCall

/-- Whether an event is a `registerRoute` call. -/
def Event.isRegisterRoute : Event → Bool
  | .registerRoute _ _ => true
  | _ => false

/-- Whether an event is a `registerItem` call. -/
def Event.isRegisterItem : Event → Bool
  | .registerItem _ => true
  | _ => false

/-- Whether an event is a `setBadge` call. -/
def Event.isSetBadge : Event → Bool
  | .setBadge _ _ => true
  | _ => false

/-- Whether an event is a warning-level log line. -/
def Event.isWarning : Event → Bool
  | .log .warning _ _ => true
  | _ => false

/-- The field mappings passed to `createOrder`, in call order. -/
def createCalls : List Event → List QVariantMap
  | [] => []
  | .createOrder fields :: rest => fields :: createCalls rest
  | _ :: rest => createCalls rest

/-- One step of the scan for the latest badge text of menu item `id`. -/
def badgeStep (id : String) (acc : Option String) : Event → Option String
  | .setBadge i text => if i = id then some text else acc
  | _ => acc

/-- The text most recently passed to `setBadge(id, _)`, if any. -/
def lastBadge (id : String) (t : List Event) : Option String :=
  t.foldl (badgeStep id) none

/-- The trace entry that records a store request. -/
def StoreOp.event : StoreOp → Event
  | .create fields => .createOrder fields
  | .update id fields => .updateOrder id fields
  | .delete id => .deleteOrder id

/-- Whether an entity with identifier `id` is in the plugin's store. -/
def World.hasOrder (w : World) (id : Nat) : Bool :=
  match w.plugin.m_ordersService with
  | some s => s.orders.any (fun o => o.id = id)
  | none => false

/-- Whether a store request changes the store, and so emits `ordersChanged`:
a create always does, an update or delete does when the id exists. -/
def World.emits (w : World) : StoreOp → Bool
  | .create _ => true
  | .update id _ => w.hasOrder id
  | .delete id => w.hasOrder id

/-- The entity count of the plugin's store (0 while there is no store). -/
def World.count (w : World) : Nat :=
  match w.plugin.m_ordersService with
  | some s => s.getOrderCount
  | none => 0

/-- The entity sequence of the plugin's store. -/
def World.orders (w : World) : List Order :=
  match w.plugin.m_ordersService with
  | some s => s.orders
  | none => []

/-- The connections on the store's `ordersChanged` signal. -/
def World.subscribers (w : World) : List Slot :=
  match w.plugin.m_ordersService with
  | some s => s.ordersChanged
  | none => []

/-- A world whose plugin has a registry and a store: the state after
`initialize` with a non-null registry. -/
def World.mk2 (registry : ServiceRegistry) (s : OrdersService) (t : List Event) : World :=
  { plugin := { m_registry := some registry, m_ordersService := some s }, trace := t }

/-- The world before anything happened: an uninitialized plugin, empty trace. -/
def World.initial : World :=
  { plugin := { m_registry := none, m_ordersService := none }, trace := [] }

/-- A menu that accepts every item. -/
def acceptingMenu : IMenu := { registerItem := fun _ _ => true }

/-- A menu that rejects every item. -/
def rejectingMenu : IMenu := { registerItem := fun _ _ => false }

/-- A menu that refuses an item whose id was passed to `registerItem` before
(the duplicate-id failure the specification mentions). -/
def uniqueIdMenu : IMenu :=
  { registerItem := fun t item =>
      !(t.any (fun e =>
        match e with
        | .registerItem i => i.id = item.id
        | _ => false)) }

/-- A registry with navigation and the duplicate-refusing menu. -/
def uniqueIdRegistry : ServiceRegistry :=
  { navigation := some .mk, menu := some uniqueIdMenu }

/-- A registry with both collaborators, the menu accepting. -/
def fullRegistry : ServiceRegistry :=
  { navigation := some .mk, menu := some acceptingMenu }

/-- A registry without navigation whose menu accepts. -/
def menuOnlyRegistry : ServiceRegistry :=
  { navigation := none, menu := some acceptingMenu }

/-- A registry with navigation only. -/
def navOnlyRegistry : ServiceRegistry :=
  { navigation := some .mk, menu := none }

/-- A registry with navigation whose menu rejects. -/
def rejectingRegistry : ServiceRegistry :=
  { navigation := some .mk, menu := some rejectingMenu }

/-- The world right after `initialize(registry)` on the initial world. -/
def freshWorld (registry : ServiceRegistry) : World :=
  (initializePlugin (some registry) World.initial).2

/-- The badge invariant: the plugin has a store with at least one subscriber,
and the latest `setBadge("rules", _)` text is the decimal count of the store. -/
def BadgeSynced (w : World) : Prop :=
  w.plugin.m_ordersService.isSome = true ∧ w.subscribers ≠ [] ∧
    lastBadge "rules" w.trace = some (QString.number w.count)

/-! ## Closed forms used by the proofs -/

/-- The `setBadge` calls one emission of `ordersChanged` produces: one per
connected slot, each carrying the current count. -/
def badgeEvents (s : OrdersService) : List Event :=
  s.ordersChanged.map (fun _ => Event.setBadge "rules" (QString.number s.getOrderCount))

/-- The events of the navigation block of `registerRoutes`. -/
def navigationEvents (registry : ServiceRegistry) : List Event :=
  match registry.navigation with
  | some _ =>
    [Event.registerRoute "rules" "qrc:/Biiz/Rules/qml/OrdersPage.qml",
     Event.registerRoute "rules/detail" "qrc:/Biiz/Rules/qml/OrderDetailPage.qml",
     Event.log .debug "RulesPlugin" "Registered navigation routes (qrc:/Biiz/Rules/qml/)"]
  | none => []

/-- The events of the two seeding creates of `start` and its closing log line,
for a store that is in state `s` when the first create is issued. -/
def seedingEvents (s : OrdersService) : List Event :=
  [Event.createOrder ruleA] ++ badgeEvents (s.insert ruleA) ++
  [Event.createOrder ruleB] ++ badgeEvents ((s.insert ruleA).insert ruleB) ++
  [Event.log .info "RulesPlugin" "Started with sample rules"]

/-- The trace the menu sees when `start`, run on `w`, reaches
`menu->registerItem`: `start` has logged its first line and `registerRoutes`
has run its navigation block. -/
def traceAtRegisterItem (registry : ServiceRegistry) (w : World) : List Event :=
  (registerNavigation registry (w.logInfo "RulesPlugin" "Starting...")).trace

/-- Whether `menu->registerItem` answers `true` when `start` is run on `w`. -/
def menuAccepts (registry : ServiceRegistry) (menu : IMenu) (w : World) : Bool :=
  menu.registerItem (traceAtRegisterItem registry w) rulesMenuItem


/-! ## Helper lemmas -/

theorem emitOrdersChanged_fold (s : OrdersService) (slots : List Slot) (w : World) :
    slots.foldl (fun acc slot => slot.invoke s acc) w =
      { plugin := w.plugin,
        trace := w.trace ++
          slots.map (fun _ => Event.setBadge "rules" (QString.number s.getOrderCount)) } := by
  induction slots generalizing w with
  | nil => simp
  | cons slot rest ih =>
    cases slot
    rw [List.foldl_cons, ih]
    simp [Slot.invoke, World.record]

theorem emitOrdersChanged_eq (s : OrdersService) (w : World) :
    emitOrdersChanged s w = { plugin := w.plugin, trace := w.trace ++ badgeEvents s } := by
  unfold emitOrdersChanged badgeEvents
  exact emitOrdersChanged_fold s s.ordersChanged w

theorem createOrder_mk2 (registry : ServiceRegistry) (s : OrdersService) (t : List Event)
    (fields : QVariantMap) :
    (World.mk2 registry s t).createOrder fields =
      some (World.mk2 registry (s.insert fields)
        (t ++ [Event.createOrder fields] ++ badgeEvents (s.insert fields))) := by
  simp [World.createOrder, World.mk2, emitOrdersChanged_eq, World.record, World.setService]

theorem logInfo_mk2 (registry : ServiceRegistry) (s : OrdersService) (t : List Event)
    (tag msg : String) :
    (World.mk2 registry s t).logInfo tag msg =
      World.mk2 registry s (t ++ [Event.log .info tag msg]) := rfl

theorem registerNavigation_mk2 (registry : ServiceRegistry) (s : OrdersService)
    (t : List Event) :
    registerNavigation registry (World.mk2 registry s t) =
      World.mk2 registry s (t ++ navigationEvents registry) := by
  rcases registry with ⟨nav, menu⟩
  cases nav <;>
    simp [registerNavigation, navigationEvents, World.mk2, World.record, World.logDebug]

theorem registerRoutes_no_menu (registry : ServiceRegistry) (s : OrdersService)
    (t : List Event) (hmenu : registry.menu = none) :
    registerRoutes (World.mk2 registry s t) =
      some (World.mk2 registry s (t ++ navigationEvents registry ++
        [Event.log .warning "RulesPlugin" "Menu service not available"])) := by
  have h := registerNavigation_mk2 registry s t
  simp only [World.mk2] at h ⊢
  simp [registerRoutes, h, hmenu, World.logWarning, World.record]

theorem registerRoutes_rejected (registry : ServiceRegistry) (menu : IMenu)
    (s : OrdersService) (t : List Event) (hmenu : registry.menu = some menu)
    (hreject : menu.registerItem (t ++ navigationEvents registry) rulesMenuItem = false) :
    registerRoutes (World.mk2 registry s t) =
      some (World.mk2 registry s (t ++ navigationEvents registry ++
        [Event.registerItem rulesMenuItem,
         Event.log .warning "RulesPlugin" "Failed to register menu item"])) := by
  have h := registerNavigation_mk2 registry s t
  simp only [World.mk2] at h ⊢
  simp [registerRoutes, h, hmenu, hreject, World.logWarning, World.record]

theorem registerRoutes_accepted (registry : ServiceRegistry) (menu : IMenu)
    (s : OrdersService) (t : List Event) (hmenu : registry.menu = some menu)
    (haccept : menu.registerItem (t ++ navigationEvents registry) rulesMenuItem = true) :
    registerRoutes (World.mk2 registry s t) =
      some (World.mk2 registry (s.connect .updateBadge) (t ++ navigationEvents registry ++
        [Event.registerItem rulesMenuItem,
         Event.setBadge "rules" (QString.number s.getOrderCount),
         Event.log .debug "RulesPlugin" "Registered menu item"])) := by
  have h := registerNavigation_mk2 registry s t
  simp only [World.mk2] at h ⊢
  simp [registerRoutes, h, hmenu, haccept, World.logDebug, World.record, World.setService]

theorem start_of_registerRoutes (registry : ServiceRegistry) (s s1 : OrdersService)
    (t t1 : List Event)
    (h : registerRoutes (World.mk2 registry s (t ++ [Event.log .info "RulesPlugin" "Starting..."]))
      = some (World.mk2 registry s1 t1)) :
    start (World.mk2 registry s t) =
      some (true, World.mk2 registry ((s1.insert ruleA).insert ruleB) (t1 ++ seedingEvents s1)) := by
  simp [start, logInfo_mk2, h, createOrder_mk2, seedingEvents, Option.bind]


theorem traceAtRegisterItem_mk2 (registry : ServiceRegistry) (s : OrdersService)
    (t : List Event) :
    traceAtRegisterItem registry (World.mk2 registry s t) =
      t ++ [Event.log .info "RulesPlugin" "Starting..."] ++ navigationEvents registry := by
  rw [traceAtRegisterItem, logInfo_mk2, registerNavigation_mk2]
  rfl

theorem start_no_menu (registry : ServiceRegistry) (s : OrdersService) (t : List Event)
    (hmenu : registry.menu = none) :
    start (World.mk2 registry s t) =
      some (true, World.mk2 registry ((s.insert ruleA).insert ruleB)
        (t ++ [Event.log .info "RulesPlugin" "Starting..."] ++ navigationEvents registry ++
          [Event.log .warning "RulesPlugin" "Menu service not available"] ++
          seedingEvents s)) :=
  start_of_registerRoutes registry s s t _ (registerRoutes_no_menu registry s _ hmenu)

theorem start_rejected (registry : ServiceRegistry) (menu : IMenu) (s : OrdersService)
    (t : List Event) (hmenu : registry.menu = some menu)
    (hreject : menuAccepts registry menu (World.mk2 registry s t) = false) :
    start (World.mk2 registry s t) =
      some (true, World.mk2 registry ((s.insert ruleA).insert ruleB)
        (t ++ [Event.log .info "RulesPlugin" "Starting..."] ++ navigationEvents registry ++
          [Event.registerItem rulesMenuItem,
           Event.log .warning "RulesPlugin" "Failed to register menu item"] ++
          seedingEvents s)) := by
  rw [menuAccepts, traceAtRegisterItem_mk2] at hreject
  exact start_of_registerRoutes registry s s t _
    (registerRoutes_rejected registry menu s _ hmenu hreject)

theorem start_accepted (registry : ServiceRegistry) (menu : IMenu) (s : OrdersService)
    (t : List Event) (hmenu : registry.menu = some menu)
    (haccept : menuAccepts registry menu (World.mk2 registry s t) = true) :
    start (World.mk2 registry s t) =
      some (true, World.mk2 registry (((s.connect .updateBadge).insert ruleA).insert ruleB)
        (t ++ [Event.log .info "RulesPlugin" "Starting..."] ++ navigationEvents registry ++
          [Event.registerItem rulesMenuItem,
           Event.setBadge "rules" (QString.number s.getOrderCount),
           Event.log .debug "RulesPlugin" "Registered menu item"] ++
          seedingEvents (s.connect .updateBadge))) := by
  rw [menuAccepts, traceAtRegisterItem_mk2] at haccept
  exact start_of_registerRoutes registry s _ t _
    (registerRoutes_accepted registry menu s _ hmenu haccept)

/-- Whatever the registry holds, `start` on an initialized plugin ends in a
world with the same registry, the two demonstration entities appended, and a
trace that extends the old one. -/
theorem start_mk2 (registry : ServiceRegistry) (s : OrdersService) (t : List Event) :
    ∃ s1 ev, start (World.mk2 registry s t) =
        some (true, World.mk2 registry ((s1.insert ruleA).insert ruleB)
          (t ++ ev ++ seedingEvents s1)) ∧
      s1.orders = s.orders ∧ s1.nextId = s.nextId ∧ createCalls ev = [] := by
  cases hmenu : registry.menu with
  | none =>
    refine ⟨s, [Event.log .info "RulesPlugin" "Starting..."] ++ navigationEvents registry ++
      [Event.log .warning "RulesPlugin" "Menu service not available"], ?_, rfl, rfl, ?_⟩
    · rw [start_no_menu registry s t hmenu]; simp
    · rcases registry with ⟨nav, m⟩
      cases nav <;> simp [navigationEvents, createCalls]
  | some menu =>
    cases hacc : menuAccepts registry menu (World.mk2 registry s t) with
    | false =>
      refine ⟨s, [Event.log .info "RulesPlugin" "Starting..."] ++ navigationEvents registry ++
        [Event.registerItem rulesMenuItem,
         Event.log .warning "RulesPlugin" "Failed to register menu item"], ?_, rfl, rfl, ?_⟩
      · rw [start_rejected registry menu s t hmenu hacc]; simp
      · rcases registry with ⟨nav, m⟩
        cases nav <;> simp [navigationEvents, createCalls]
    | true =>
      refine ⟨s.connect .updateBadge,
        [Event.log .info "RulesPlugin" "Starting..."] ++ navigationEvents registry ++
        [Event.registerItem rulesMenuItem,
         Event.setBadge "rules" (QString.number s.getOrderCount),
         Event.log .debug "RulesPlugin" "Registered menu item"], ?_, rfl, rfl, ?_⟩
      · rw [start_accepted registry menu s t hmenu hacc]; simp
      · rcases registry with ⟨nav, m⟩
        cases nav <;> simp [navigationEvents, createCalls]

theorem createCalls_append (a b : List Event) :
    createCalls (a ++ b) = createCalls a ++ createCalls b := by
  induction a with
  | nil => simp [createCalls]
  | cons e rest ih => cases e <;> simp [createCalls, ih]

theorem createCalls_badgeEvents (s : OrdersService) : createCalls (badgeEvents s) = [] := by
  unfold badgeEvents
  induction s.ordersChanged with
  | nil => simp [createCalls]
  | cons _ rest ih => simpa [createCalls] using ih

theorem createCalls_seedingEvents (s : OrdersService) :
    createCalls (seedingEvents s) = [ruleA, ruleB] := by
  simp [seedingEvents, createCalls_append, createCalls_badgeEvents, createCalls]


/-! ## The claims, each after the lemmas it rests on -/

/-- C2: `start()` returns `true` for every registry configuration of an
initialized plugin (navigation present or absent, menu present or absent, any
answer of `registerItem`), and in no world at all does it return `false`. -/
theorem start_always_true :
    (∀ (registry : ServiceRegistry) (s : OrdersService) (t : List Event),
      ∃ w1, start (World.mk2 registry s t) = some (true, w1)) ∧
    (∀ (w : World) (r : Bool × World), start w = some r → r.1 = true) := by
  constructor
  · intro registry s t
    obtain ⟨s1, ev, h, -⟩ := start_mk2 registry s t
    exact ⟨_, h⟩
  · intro w r h
    simp only [start, bind, Option.bind_eq_some, pure, Option.some.injEq] at h
    obtain ⟨w1, -, w2, -, w3, -, rfl⟩ := h
    rfl

/-- C7: `start()` issues exactly two `createOrder` calls, first "Rule A" and
then "Rule B" (both with status "active", quantity 1, price 0); the store ends
with these two entities appended, so the count grows by 2, and a freshly
initialized plugin has count 2 after `start()` whatever the registry holds. -/
theorem start_seeds_two_rules (registry : ServiceRegistry) (s : OrdersService)
    (t : List Event) :
    (∃ w1 ev, start (World.mk2 registry s t) = some (true, w1) ∧
      w1.trace = t ++ ev ∧ createCalls ev = [ruleA, ruleB] ∧
      w1.orders = s.orders ++
        [{ id := s.nextId, fields := ruleA }, { id := s.nextId + 1, fields := ruleB }] ∧
      w1.count = (World.mk2 registry s t).count + 2) ∧
    (List.lookup "customerName" ruleA = some (.str "Rule A") ∧
      List.lookup "status" ruleA = some (.str "active") ∧
      List.lookup "productName" ruleA = some (.str "Validation Rule") ∧
      List.lookup "quantity" ruleA = some (.int 1) ∧
      List.lookup "price" ruleA = some (.int 0)) ∧
    (List.lookup "customerName" ruleB = some (.str "Rule B") ∧
      List.lookup "status" ruleB = some (.str "active") ∧
      List.lookup "productName" ruleB = some (.str "Approval Rule") ∧
      List.lookup "quantity" ruleB = some (.int 1) ∧
      List.lookup "price" ruleB = some (.int 0)) ∧
    (∃ w1, start (freshWorld registry) = some (true, w1) ∧ w1.count = 2) := by
  refine ⟨?_, by decide, by decide, ?_⟩
  · obtain ⟨s1, ev, h, ho, hn, hc⟩ := start_mk2 registry s t
    refine ⟨_, ev ++ seedingEvents s1, h, ?_, ?_, ?_, ?_⟩
    · simp [World.mk2]
    · simp [createCalls_append, hc, createCalls_seedingEvents]
    · simp [World.orders, World.mk2, OrdersService.insert, ho, hn]
    · simp [World.count, World.mk2, OrdersService.insert, OrdersService.getOrderCount, ho]
  · obtain ⟨s1, ev, h, ho, hn, hc⟩ := start_mk2 registry OrdersService.new
      (freshWorld registry).trace
    refine ⟨_, h, ?_⟩
    simp [World.count, World.mk2, OrdersService.insert, OrdersService.getOrderCount, ho,
      OrdersService.new]

/-- C8: `metadata()` returns the same descriptor in every plugin state, with
id "com.biiz.rules", name "Rules Plugin", version "1.0.0", vendor "Biiz",
exactly one required service (INavigation, min "1.0"), provides exactly
["RulesService"], qmlModules exactly ["Biiz.Rules"] and priority 20; the call
leaves the plugin fields, the store and the trace of calls untouched. -/
theorem metadata_constant_and_pure :
    (∀ w1 w2 : World, (metadata w1).1 = (metadata w2).1) ∧
    (∀ w : World, (metadata w).2 = w) ∧
    (∀ w : World,
      (metadata w).1.member "id" = some (.str "com.biiz.rules") ∧
      (metadata w).1.member "name" = some (.str "Rules Plugin") ∧
      (metadata w).1.member "version" = some (.str "1.0.0") ∧
      (metadata w).1.member "vendor" = some (.str "Biiz") ∧
      (metadata w).1.member "requires" =
        some (.arr [.obj [("type", .str "service"), ("id", .str "INavigation"),
                          ("min", .str "1.0")]]) ∧
      (metadata w).1.member "provides" = some (.arr [.str "RulesService"]) ∧
      (metadata w).1.member "qmlModules" = some (.arr [.str "Biiz.Rules"]) ∧
      (metadata w).1.member "priority" = some (.num 20)) := by
  refine ⟨fun _ _ => rfl, fun _ => rfl, fun _ => ?_⟩
  exact ⟨rfl, rfl, rfl, rfl, rfl, rfl, rfl, rfl⟩

/-- C9: `stop()` has no destructive side effect: in every plugin state the
plugin fields (registry pointer and store, hence entity sequence and count)
are unchanged, and the only event it adds is one info log line, so no call
reaches the navigation or menu collaborator. -/
theorem stop_preserves_state (w : World) :
    (stop w).orders = w.orders ∧
    (stop w).count = w.count ∧
    (stop w).plugin.m_ordersService = w.plugin.m_ordersService ∧
    (stop w).plugin.m_registry = w.plugin.m_registry ∧
    (stop w).trace = w.trace ++ [Event.log .info "RulesPlugin" "Stopping..."] ∧
    collaboratorCalls (stop w).trace = collaboratorCalls w.trace := by
  refine ⟨rfl, rfl, rfl, rfl, rfl, ?_⟩
  simp [stop, World.logInfo, World.record, collaboratorCalls, Event.isCollaboratorCall]


theorem modify_none (s : OrdersService) (id : Nat) (fields : QVariantMap)
    (h : s.modify id fields = none) : s.orders.any (fun o => o.id = id) = false := by
  unfold OrdersService.modify at h
  by_cases hc : s.orders.any (fun o => o.id = id) = true
  · simp [hc] at h
  · simpa using hc

theorem modify_some (s s1 : OrdersService) (id : Nat) (fields : QVariantMap)
    (h : s.modify id fields = some s1) :
    s.orders.any (fun o => o.id = id) = true ∧ s1.ordersChanged = s.ordersChanged ∧
      s1.getOrderCount = s.getOrderCount := by
  unfold OrdersService.modify at h
  by_cases hc : s.orders.any (fun o => o.id = id) = true
  · simp only [hc, if_true, Option.some.injEq] at h
    subst h
    exact ⟨hc, rfl, by simp [OrdersService.getOrderCount]⟩
  · simp [hc] at h

theorem erase_none (s : OrdersService) (id : Nat)
    (h : s.erase id = none) : s.orders.any (fun o => o.id = id) = false := by
  unfold OrdersService.erase at h
  by_cases hc : s.orders.any (fun o => o.id = id) = true
  · simp [hc] at h
  · simpa using hc

theorem erase_some (s s1 : OrdersService) (id : Nat)
    (h : s.erase id = some s1) :
    s.orders.any (fun o => o.id = id) = true ∧ s1.ordersChanged = s.ordersChanged := by
  unfold OrdersService.erase at h
  by_cases hc : s.orders.any (fun o => o.id = id) = true
  · simp only [hc, if_true, Option.some.injEq] at h
    subst h
    exact ⟨hc, rfl⟩
  · simp [hc] at h

/-- Every store request on a plugin that has a store goes through: the store
is replaced by one with the same subscribers, the request is recorded, and, when
the request changes the store, each subscriber sets the badge to the new count. -/
theorem apply_spec (registry : Option ServiceRegistry) (s : OrdersService) (t : List Event)
    (op : StoreOp) :
    ∃ s1, World.apply ⟨⟨registry, some s⟩, t⟩ op = some
        ⟨⟨registry, some s1⟩, t ++ [op.event] ++
          (if World.emits ⟨⟨registry, some s⟩, t⟩ op then badgeEvents s1 else [])⟩ ∧
      s1.ordersChanged = s.ordersChanged ∧
      (World.emits ⟨⟨registry, some s⟩, t⟩ op = false → s1 = s) := by
  cases op with
  | create fields =>
    refine ⟨s.insert fields, ?_, rfl, by simp [World.emits]⟩
    simp [World.apply, World.createOrder, emitOrdersChanged_eq, World.record,
      World.setService, World.emits, StoreOp.event]
  | update id fields =>
    cases hm : s.modify id fields with
    | none =>
      have hc := modify_none s id fields hm
      refine ⟨s, ?_, rfl, fun _ => rfl⟩
      simp [World.apply, World.updateOrder, hm, World.record, World.emits, World.hasOrder,
        StoreOp.event, hc]
    | some s1 =>
      obtain ⟨hc, hsub, -⟩ := modify_some s s1 id fields hm
      refine ⟨s1, ?_, hsub, ?_⟩
      · simp [World.apply, World.updateOrder, hm, World.record, World.emits, World.hasOrder,
          StoreOp.event, hc, emitOrdersChanged_eq, World.setService]
      · simp [World.emits, World.hasOrder, hc]
  | delete id =>
    cases hm : s.erase id with
    | none =>
      have hc := erase_none s id hm
      refine ⟨s, ?_, rfl, fun _ => rfl⟩
      simp [World.apply, World.deleteOrder, hm, World.record, World.emits, World.hasOrder,
        StoreOp.event, hc]
    | some s1 =>
      obtain ⟨hc, hsub⟩ := erase_some s s1 id hm
      refine ⟨s1, ?_, hsub, ?_⟩
      · simp [World.apply, World.deleteOrder, hm, World.record, World.emits, World.hasOrder,
          StoreOp.event, hc, emitOrdersChanged_eq, World.setService]
      · simp [World.emits, World.hasOrder, hc]


theorem lastBadge_append (id : String) (a b : List Event) :
    lastBadge id (a ++ b) = b.foldl (badgeStep id) (lastBadge id a) := by
  simp [lastBadge, List.foldl_append]

theorem foldl_badgeStep_badgeEvents (s : OrdersService) (acc : Option String)
    (h : s.ordersChanged ≠ []) :
    (badgeEvents s).foldl (badgeStep "rules") acc = some (QString.number s.getOrderCount) := by
  unfold badgeEvents
  generalize s.ordersChanged = slots at h
  induction slots generalizing acc with
  | nil => exact absurd rfl h
  | cons slot rest ih =>
    cases rest with
    | nil => simp [badgeStep]
    | cons slot2 rest2 =>
      simp only [List.map_cons, List.foldl_cons]
      simpa using ih (badgeStep "rules" acc _) (by simp)

theorem synced_apply (w : World) (op : StoreOp) (h : BadgeSynced w) :
    ∃ w1, w.apply op = some w1 ∧ BadgeSynced w1 := by
  rcases w with ⟨⟨registry, svc⟩, t⟩
  cases svc with
  | none => simp [BadgeSynced] at h
  | some s =>
    obtain ⟨-, hsub, hbadge⟩ := h
    simp only [World.subscribers, World.count] at hsub hbadge
    obtain ⟨s1, happ, hsub1, hsame⟩ := apply_spec registry s t op
    refine ⟨_, happ, rfl, ?_, ?_⟩
    · simpa [World.subscribers, hsub1] using hsub
    · simp only [World.count]
      cases hem : World.emits ⟨⟨registry, some s⟩, t⟩ op with
      | true =>
        simp only [if_true]
        rw [lastBadge_append]
        exact foldl_badgeStep_badgeEvents s1 _ (by rw [hsub1]; exact hsub)
      | false =>
        rw [hsame hem]
        simp only [Bool.false_eq_true, if_false, List.append_nil]
        rw [lastBadge_append, ← hbadge]
        cases op <;> simp [StoreOp.event, badgeStep]

theorem synced_applyAll (ops : List StoreOp) (w : World) (h : BadgeSynced w) :
    ∃ w1, w.applyAll ops = some w1 ∧ BadgeSynced w1 := by
  induction ops generalizing w with
  | nil => exact ⟨w, rfl, h⟩
  | cons op rest ih =>
    obtain ⟨w1, h1, hs1⟩ := synced_apply w op h
    obtain ⟨w2, h2, hs2⟩ := ih w1 hs1
    exact ⟨w2, by simp [World.applyAll, h1, h2], hs2⟩

theorem synced_logInfo (w : World) (tag msg : String) (h : BadgeSynced w) :
    BadgeSynced (w.logInfo tag msg) := by
  obtain ⟨h1, h2, h3⟩ := h
  refine ⟨h1, h2, ?_⟩
  have : (w.logInfo tag msg).trace = w.trace ++ [Event.log .info tag msg] := rfl
  rw [this, lastBadge_append]
  simpa [badgeStep] using h3

theorem synced_after_registerRoutes (registry : ServiceRegistry) (s : OrdersService)
    (t : List Event) :
    BadgeSynced (World.mk2 registry (s.connect .updateBadge) (t ++
        [Event.registerItem rulesMenuItem,
         Event.setBadge "rules" (QString.number s.getOrderCount),
         Event.log .debug "RulesPlugin" "Registered menu item"])) := by
  refine ⟨rfl, ?_, ?_⟩
  · simp [World.subscribers, World.mk2, OrdersService.connect]
  · simp only [World.mk2, World.count]
    rw [lastBadge_append]
    simp [badgeStep, OrdersService.connect, OrdersService.getOrderCount]

/-- C1: with the menu present and accepting the item, the badge is synchronised
from the moment `registerRoutes()` returns: after `registerRoutes`, after each
of the two seeding creates of `start()`, after `start()` itself, and after
every further sequence of store requests (create, update, delete), the text
most recently passed to `setBadge("rules", _)` is the decimal rendering of the
store's current entity count. -/
theorem badge_synchronised (registry : ServiceRegistry) (menu : IMenu) (s : OrdersService)
    (t : List Event) (hmenu : registry.menu = some menu)
    (haccept : menuAccepts registry menu (World.mk2 registry s t) = true) :
    ∃ w1 w2,
      registerRoutes ((World.mk2 registry s t).logInfo "RulesPlugin" "Starting...") = some w1 ∧
      w1.applyAll [.create ruleA, .create ruleB] = some w2 ∧
      start (World.mk2 registry s t) =
        some (true, w2.logInfo "RulesPlugin" "Started with sample rules") ∧
      (∀ ops : List StoreOp, ∃ w3, w1.applyAll ops = some w3 ∧
        lastBadge "rules" w3.trace = some (QString.number w3.count)) ∧
      (∀ ops : List StoreOp, ∃ w3,
        (w2.logInfo "RulesPlugin" "Started with sample rules").applyAll ops = some w3 ∧
        lastBadge "rules" w3.trace = some (QString.number w3.count)) := by
  have hacc := haccept
  rw [menuAccepts, traceAtRegisterItem_mk2] at hacc
  have hreg := registerRoutes_accepted registry menu s _ hmenu hacc
  have hsync1 := synced_after_registerRoutes registry s
    (t ++ [Event.log .info "RulesPlugin" "Starting..."] ++ navigationEvents registry)
  obtain ⟨w2, hw2, hsync2⟩ := synced_applyAll [.create ruleA, .create ruleB] _ hsync1
  refine ⟨_, w2, hreg, hw2, ?_, ?_, ?_⟩
  · rw [start_accepted registry menu s t hmenu haccept]
    simp only [World.applyAll, World.apply, createOrder_mk2, Option.bind, Option.some.injEq]
      at hw2
    subst hw2
    simp [World.logInfo, World.record, World.mk2, seedingEvents]
  · intro ops
    obtain ⟨w3, h3, hs3⟩ := synced_applyAll ops _ hsync1
    exact ⟨w3, h3, hs3.2.2⟩
  · intro ops
    obtain ⟨w3, h3, hs3⟩ := synced_applyAll ops _ (synced_logInfo w2 _ _ hsync2)
    exact ⟨w3, h3, hs3.2.2⟩

/-- Witness for C1: a fresh store, navigation present, an accepting menu. -/
theorem badge_synchronised_witness :
    ∃ w1 w2,
      registerRoutes ((World.mk2 fullRegistry OrdersService.new []).logInfo
        "RulesPlugin" "Starting...") = some w1 ∧
      w1.applyAll [.create ruleA, .create ruleB] = some w2 ∧
      start (World.mk2 fullRegistry OrdersService.new []) =
        some (true, w2.logInfo "RulesPlugin" "Started with sample rules") ∧
      (∀ ops : List StoreOp, ∃ w3, w1.applyAll ops = some w3 ∧
        lastBadge "rules" w3.trace = some (QString.number w3.count)) ∧
      (∀ ops : List StoreOp, ∃ w3,
        (w2.logInfo "RulesPlugin" "Started with sample rules").applyAll ops = some w3 ∧
        lastBadge "rules" w3.trace = some (QString.number w3.count)) :=
  badge_synchronised fullRegistry acceptingMenu OrdersService.new [] rfl rfl


theorem filter_badgeEvents (p : Event → Bool) (s : OrdersService) :
    (badgeEvents s).filter p =
      if p (Event.setBadge "rules" (QString.number s.getOrderCount)) then badgeEvents s
      else [] := by
  unfold badgeEvents
  induction s.ordersChanged with
  | nil => simp
  | cons slot rest ih =>
    by_cases hp : p (Event.setBadge "rules" (QString.number s.getOrderCount)) = true
    · simp only [hp, if_true] at ih ⊢
      simp [List.filter_cons, hp]
    · simp only [hp] at ih ⊢
      simp [List.filter_cons, hp]

theorem badgeEvents_of_no_subscriber (s : OrdersService) (h : s.ordersChanged = []) :
    badgeEvents s = [] := by
  simp [badgeEvents, h]

/-- A sequence of store requests on a plugin that has a store goes through,
keeps the registry and the subscribers, only extends the trace, and adds no
`setBadge` call when nobody is subscribed. -/
theorem applyAll_spec (registry : Option ServiceRegistry) (ops : List StoreOp)
    (s : OrdersService) (t : List Event) :
    ∃ s1 ev, World.applyAll ⟨⟨registry, some s⟩, t⟩ ops = some ⟨⟨registry, some s1⟩, t ++ ev⟩ ∧
      s1.ordersChanged = s.ordersChanged ∧
      (s.ordersChanged = [] → ev.filter Event.isSetBadge = []) := by
  induction ops generalizing s t with
  | nil => exact ⟨s, [], by simp [World.applyAll], rfl, fun _ => rfl⟩
  | cons op rest ih =>
    obtain ⟨s1, h1, hsub1, -⟩ := apply_spec registry s t op
    obtain ⟨s2, ev, h2, hsub2, hq⟩ := ih s1 (t ++ [op.event] ++
      (if World.emits ⟨⟨registry, some s⟩, t⟩ op then badgeEvents s1 else []))
    refine ⟨s2, [op.event] ++
      (if World.emits ⟨⟨registry, some s⟩, t⟩ op then badgeEvents s1 else []) ++ ev, ?_,
      hsub2.trans hsub1, ?_⟩
    · simp only [World.applyAll, h1, Option.bind, h2]
      simp
    · intro hs
      have hb : badgeEvents s1 = [] := badgeEvents_of_no_subscriber s1 (hsub1.trans hs)
      have hev := hq (hsub1.trans hs)
      cases op <;> simp [StoreOp.event, Event.isSetBadge, hb, hev]

/-- C4 (as stated, refuted): with both collaborators present and the item
accepted, the trace of one `start()` holds two `registerRoute` calls, not one. -/
theorem registerRoute_not_exactly_once :
    (start (World.mk2 fullRegistry OrdersService.new [])).map
        (fun r => (r.1, r.2.trace.countP Event.isRegisterRoute)) = some (true, 2) ∧
    (start (World.mk2 fullRegistry OrdersService.new [])).map
        (fun r => (r.1, r.2.trace.countP Event.isRegisterRoute)) ≠ some (true, 1) := by
  decide

/-- C4 (amended): with both collaborators present and the item accepted, the
events one `start()` adds contain exactly two `registerRoute` calls (route
"rules", then route "rules/detail") and exactly one `registerItem` call, and
the collaborator calls come in the fixed order: the two route registrations,
then `registerItem`, then the initial `setBadge` with the current count; all
later collaborator calls of that `start()` are `setBadge` calls. -/
theorem start_call_order (registry : ServiceRegistry) (nav : INavigation) (menu : IMenu)
    (s : OrdersService) (t : List Event) (hnav : registry.navigation = some nav)
    (hmenu : registry.menu = some menu)
    (haccept : menuAccepts registry menu (World.mk2 registry s t) = true) :
    ∃ w1 ev rest, start (World.mk2 registry s t) = some (true, w1) ∧
      w1.trace = t ++ ev ∧
      collaboratorCalls ev =
        [Event.registerRoute "rules" "qrc:/Biiz/Rules/qml/OrdersPage.qml",
         Event.registerRoute "rules/detail" "qrc:/Biiz/Rules/qml/OrderDetailPage.qml",
         Event.registerItem rulesMenuItem,
         Event.setBadge "rules" (QString.number s.getOrderCount)] ++ rest ∧
      (∀ e ∈ rest, e.isSetBadge = true) ∧
      ev.countP Event.isRegisterRoute = 2 ∧
      ev.countP Event.isRegisterItem = 1 := by
  refine ⟨_, [Event.log .info "RulesPlugin" "Starting..."] ++ navigationEvents registry ++
      [Event.registerItem rulesMenuItem,
       Event.setBadge "rules" (QString.number s.getOrderCount),
       Event.log .debug "RulesPlugin" "Registered menu item"] ++
      seedingEvents (s.connect .updateBadge),
    badgeEvents ((s.connect .updateBadge).insert ruleA) ++
      badgeEvents (((s.connect .updateBadge).insert ruleA).insert ruleB),
    start_accepted registry menu s t hmenu haccept, ?_, ?_, ?_, ?_, ?_⟩
  · simp [World.mk2]
  · rcases registry with ⟨n, m⟩
    simp only at hnav
    subst hnav
    simp [collaboratorCalls, navigationEvents, seedingEvents, List.filter_append,
      filter_badgeEvents, Event.isCollaboratorCall, List.filter_cons]
  · intro e he
    simp only [List.mem_append, badgeEvents, List.mem_map] at he
    rcases he with ⟨_, _, rfl⟩ | ⟨_, _, rfl⟩ <;> rfl
  · rcases registry with ⟨n, m⟩
    simp only at hnav
    subst hnav
    simp [List.countP_eq_length_filter, navigationEvents, seedingEvents, List.filter_append,
      filter_badgeEvents, Event.isRegisterRoute, List.filter_cons]
  · rcases registry with ⟨n, m⟩
    simp only at hnav
    subst hnav
    simp [List.countP_eq_length_filter, navigationEvents, seedingEvents, List.filter_append,
      filter_badgeEvents, Event.isRegisterItem, List.filter_cons]

/-- Witness for C4 (amended): a fresh store, navigation present, an accepting
menu. -/
theorem start_call_order_witness :
    ∃ w1 ev rest, start (World.mk2 fullRegistry OrdersService.new []) = some (true, w1) ∧
      w1.trace = [] ++ ev ∧
      collaboratorCalls ev =
        [Event.registerRoute "rules" "qrc:/Biiz/Rules/qml/OrdersPage.qml",
         Event.registerRoute "rules/detail" "qrc:/Biiz/Rules/qml/OrderDetailPage.qml",
         Event.registerItem rulesMenuItem,
         Event.setBadge "rules" (QString.number OrdersService.new.getOrderCount)] ++ rest ∧
      (∀ e ∈ rest, e.isSetBadge = true) ∧
      ev.countP Event.isRegisterRoute = 2 ∧
      ev.countP Event.isRegisterItem = 1 :=
  start_call_order fullRegistry .mk acceptingMenu OrdersService.new [] rfl rfl rfl

/-- C5 (the code at the failing input): with navigation absent and an accepting
menu, `start()` makes no `registerRoute` call and logs no warning at all, while
with the menu absent it does log the warning "Menu service not available" and
makes no `registerItem` or `setBadge` call. -/
theorem no_warning_when_navigation_absent :
    (start (World.mk2 menuOnlyRegistry OrdersService.new [])).map
        (fun r => (r.1, r.2.trace.filter Event.isRegisterRoute,
          r.2.trace.filter Event.isWarning)) = some (true, [], []) ∧
    (start (World.mk2 navOnlyRegistry OrdersService.new [])).map
        (fun r => (r.1, r.2.trace.filter Event.isWarning,
          r.2.trace.filter Event.isRegisterItem, r.2.trace.filter Event.isSetBadge)) =
      some (true, [Event.log .warning "RulesPlugin" "Menu service not available"], [], []) := by
  decide

/-- C6 (as stated, refuted): after `start()` with the item registered and then
`stop()`, a create on the store still ends in a `setBadge` call. -/
theorem stop_keeps_badge_subscriber :
    ((start (World.mk2 fullRegistry OrdersService.new [])).bind
        (fun r => (stop r.2).createOrder ruleA)).map
          (fun w => w.trace.filter Event.isSetBadge) =
      some [Event.setBadge "rules" "0", Event.setBadge "rules" "1",
            Event.setBadge "rules" "2", Event.setBadge "rules" "3"] ∧
    (start (World.mk2 fullRegistry OrdersService.new [])).map
        (fun r => (stop r.2).trace.filter Event.isSetBadge) =
      some [Event.setBadge "rules" "0", Event.setBadge "rules" "1",
            Event.setBadge "rules" "2"] := by
  decide


theorem badgeEvents_eq_replicate (s : OrdersService) :
    badgeEvents s = List.replicate s.ordersChanged.length
      (Event.setBadge "rules" (QString.number s.getOrderCount)) := by
  simp [badgeEvents]

/-- After any sequence of store requests, one more request is recorded and, when
it changes the store, is followed by one `setBadge` call per subscriber, each
carrying the new count. -/
theorem apply_after_applyAll (registry : Option ServiceRegistry) (s : OrdersService)
    (t : List Event) (ops : List StoreOp) (op : StoreOp) :
    ∃ w2 w3, World.applyAll ⟨⟨registry, some s⟩, t⟩ ops = some w2 ∧ w2.apply op = some w3 ∧
      w3.trace = w2.trace ++ [op.event] ++
        (if w2.emits op then List.replicate s.ordersChanged.length
          (Event.setBadge "rules" (QString.number w3.count)) else []) := by
  obtain ⟨s1, ev, h1, hsub1, -⟩ := applyAll_spec registry ops s t
  obtain ⟨s2, h2, hsub2, -⟩ := apply_spec registry s1 (t ++ ev) op
  refine ⟨_, _, h1, h2, ?_⟩
  simp only [World.count]
  rw [badgeEvents_eq_replicate, hsub2, hsub1]

/-- C3 (as stated, refuted): a plugin started once with a menu that refuses
duplicate ids is started again.  The second `registerItem` answers `false`
(the warning "Failed to register menu item" is logged, the subscriber list
stays at one slot), yet this second `start()` adds the calls `setBadge "3"`
and `setBadge "4"`, and a create after it adds `setBadge "5"`: the slot
connected by the first `start()` is still there. -/
theorem rejected_start_still_sets_badge :
    (start (World.mk2 uniqueIdRegistry OrdersService.new [])).map
        (fun r => (r.1, menuAccepts uniqueIdRegistry uniqueIdMenu r.2, r.2.subscribers,
          r.2.trace.filter Event.isSetBadge)) =
      some (true, false, [Slot.updateBadge],
        [Event.setBadge "rules" "0", Event.setBadge "rules" "1",
         Event.setBadge "rules" "2"]) ∧
    ((start (World.mk2 uniqueIdRegistry OrdersService.new [])).bind
        (fun r => start r.2)).map
          (fun r => (r.1, r.2.subscribers, r.2.trace.filter Event.isWarning,
            r.2.trace.filter Event.isSetBadge)) =
      some (true, [Slot.updateBadge],
        [Event.log .warning "RulesPlugin" "Failed to register menu item"],
        [Event.setBadge "rules" "0", Event.setBadge "rules" "1",
         Event.setBadge "rules" "2", Event.setBadge "rules" "3",
         Event.setBadge "rules" "4"]) ∧
    (((start (World.mk2 uniqueIdRegistry OrdersService.new [])).bind
        (fun r => start r.2)).bind (fun r => r.2.createOrder ruleA)).map
          (fun w => w.trace.filter Event.isSetBadge) =
      some [Event.setBadge "rules" "0", Event.setBadge "rules" "1",
            Event.setBadge "rules" "2", Event.setBadge "rules" "3",
            Event.setBadge "rules" "4", Event.setBadge "rules" "5"] := by
  decide

/-- C3 (amended): when the menu is present but `registerItem` answers `false`,
only the badge wiring is skipped: `start()` still returns `true`, installs no
subscriber, still registers the two routes (when navigation is present) and
still creates the two demonstration entities.  The only `setBadge` calls made
during this `start()` and after it are those of subscribers connected before
it: one per earlier subscriber for each seeding create and for each later
store request that changes the store.  So on a plugin without earlier
subscriber (the state after `initialize`) neither `start()` nor any later
store request produces a `setBadge` call. -/
theorem rejected_item_skips_only_badge (registry : ServiceRegistry) (menu : IMenu)
    (s : OrdersService) (t : List Event) (hmenu : registry.menu = some menu)
    (hreject : menuAccepts registry menu (World.mk2 registry s t) = false) :
    ∃ w1, start (World.mk2 registry s t) = some (true, w1) ∧
      w1.subscribers = s.ordersChanged ∧
      w1.orders = s.orders ++
        [{ id := s.nextId, fields := ruleA }, { id := s.nextId + 1, fields := ruleB }] ∧
      (registry.navigation.isSome = true →
        w1.trace.filter Event.isRegisterRoute = t.filter Event.isRegisterRoute ++
          [Event.registerRoute "rules" "qrc:/Biiz/Rules/qml/OrdersPage.qml",
           Event.registerRoute "rules/detail" "qrc:/Biiz/Rules/qml/OrderDetailPage.qml"]) ∧
      w1.trace.filter Event.isSetBadge = t.filter Event.isSetBadge ++
        badgeEvents (s.insert ruleA) ++ badgeEvents ((s.insert ruleA).insert ruleB) ∧
      (∀ (ops : List StoreOp) (op : StoreOp), ∃ w2 w3,
        w1.applyAll ops = some w2 ∧ w2.apply op = some w3 ∧
        w3.trace = w2.trace ++ [op.event] ++
          (if w2.emits op then List.replicate s.ordersChanged.length
            (Event.setBadge "rules" (QString.number w3.count)) else [])) ∧
      (s.ordersChanged = [] →
        w1.trace.filter Event.isSetBadge = t.filter Event.isSetBadge ∧
        ∀ ops : List StoreOp, ∃ w2, w1.applyAll ops = some w2 ∧ w2.subscribers = [] ∧
          w2.trace.filter Event.isSetBadge = t.filter Event.isSetBadge) := by
  have hbadge : ∀ x : List Event,
      (t ++ [Event.log .info "RulesPlugin" "Starting..."] ++ navigationEvents registry ++
          [Event.registerItem rulesMenuItem,
           Event.log .warning "RulesPlugin" "Failed to register menu item"] ++
          seedingEvents s ++ x).filter Event.isSetBadge =
        t.filter Event.isSetBadge ++ badgeEvents (s.insert ruleA) ++
          badgeEvents ((s.insert ruleA).insert ruleB) ++ x.filter Event.isSetBadge := by
    intro x
    rcases registry with ⟨nav, m⟩
    cases nav <;>
      simp [navigationEvents, seedingEvents, List.filter_append, filter_badgeEvents,
        Event.isSetBadge, List.filter_cons]
  refine ⟨_, start_rejected registry menu s t hmenu hreject, rfl, ?_, ?_, ?_, ?_, ?_⟩
  · simp [World.orders, World.mk2, OrdersService.insert]
  · intro hnav
    rcases registry with ⟨nav, m⟩
    cases nav with
    | none => simp at hnav
    | some n =>
      simp [World.mk2, navigationEvents, seedingEvents, List.filter_append,
        filter_badgeEvents, Event.isRegisterRoute, List.filter_cons]
  · have := hbadge []
    simpa [World.mk2] using this
  · intro ops op
    exact apply_after_applyAll (some registry) ((s.insert ruleA).insert ruleB)
      (t ++ [Event.log .info "RulesPlugin" "Starting..."] ++ navigationEvents registry ++
        [Event.registerItem rulesMenuItem,
         Event.log .warning "RulesPlugin" "Failed to register menu item"] ++
        seedingEvents s) ops op
  · intro hs
    have hb1 : badgeEvents (s.insert ruleA) = [] := badgeEvents_of_no_subscriber _ hs
    have hb2 : badgeEvents ((s.insert ruleA).insert ruleB) = [] :=
      badgeEvents_of_no_subscriber _ hs
    constructor
    · have := hbadge []
      simpa [World.mk2, hb1, hb2] using this
    · intro ops
      obtain ⟨s2, ev, h2, hsub2, hq⟩ := applyAll_spec (some registry) ops
        ((s.insert ruleA).insert ruleB)
        (t ++ [Event.log .info "RulesPlugin" "Starting..."] ++ navigationEvents registry ++
          [Event.registerItem rulesMenuItem,
           Event.log .warning "RulesPlugin" "Failed to register menu item"] ++
          seedingEvents s)
      refine ⟨_, h2, ?_, ?_⟩
      · simp only [World.subscribers]
        rw [hsub2]; exact hs
      · simp only []
        rw [hbadge ev, hb1, hb2, hq hs]
        simp

/-- Witness for C3 (amended): a fresh store and a menu that rejects every item. -/
theorem rejected_item_skips_only_badge_witness :
    ∃ w1, start (World.mk2 rejectingRegistry OrdersService.new []) = some (true, w1) ∧
      w1.subscribers = [] ∧
      w1.orders = [{ id := 0, fields := ruleA }, { id := 1, fields := ruleB }] ∧
      w1.trace.filter Event.isSetBadge = [] := by
  obtain ⟨w1, h1, h2, h3, -, -, -, h6⟩ :=
    rejected_item_skips_only_badge rejectingRegistry rejectingMenu OrdersService.new [] rfl rfl
  exact ⟨w1, h1, h2, h3, (h6 rfl).1⟩


/-- C6 (amended): `stop()` does not release the badge subscription installed
by `start()`: for every started plugin whose menu item was registered, the
subscriber list after `stop()` still ends with the badge slot, and every later
store request that changes the store is followed by one `setBadge("rules", _)`
call per subscriber, carrying the new count. -/
theorem subscription_survives_stop (registry : ServiceRegistry) (menu : IMenu)
    (s : OrdersService) (t : List Event) (hmenu : registry.menu = some menu)
    (haccept : menuAccepts registry menu (World.mk2 registry s t) = true) :
    ∃ w1, start (World.mk2 registry s t) = some (true, w1) ∧
      (stop w1).subscribers = s.ordersChanged ++ [.updateBadge] ∧
      ∀ (ops : List StoreOp) (op : StoreOp), ∃ w2 w3,
        (stop w1).applyAll ops = some w2 ∧ w2.apply op = some w3 ∧
        w3.trace = w2.trace ++ [op.event] ++
          (if w2.emits op then List.replicate (s.ordersChanged.length + 1)
            (Event.setBadge "rules" (QString.number w3.count)) else []) := by
  refine ⟨_, start_accepted registry menu s t hmenu haccept, rfl, ?_⟩
  intro ops op
  have h := apply_after_applyAll (some registry)
    (((s.connect .updateBadge).insert ruleA).insert ruleB)
    (t ++ [Event.log .info "RulesPlugin" "Starting..."] ++ navigationEvents registry ++
      [Event.registerItem rulesMenuItem,
       Event.setBadge "rules" (QString.number s.getOrderCount),
       Event.log .debug "RulesPlugin" "Registered menu item"] ++
      seedingEvents (s.connect .updateBadge) ++
      [Event.log .info "RulesPlugin" "Stopping..."]) ops op
  have hl : (((s.connect .updateBadge).insert ruleA).insert ruleB).ordersChanged.length =
      s.ordersChanged.length + 1 := by
    simp [OrdersService.insert, OrdersService.connect]
  rw [hl] at h
  exact h

/-- Witness for C6 (amended): a fresh store, navigation present, an accepting
menu. -/
theorem subscription_survives_stop_witness :
    ∃ w1, start (World.mk2 fullRegistry OrdersService.new []) = some (true, w1) ∧
      (stop w1).subscribers = OrdersService.new.ordersChanged ++ [.updateBadge] ∧
      ∀ (ops : List StoreOp) (op : StoreOp), ∃ w2 w3,
        (stop w1).applyAll ops = some w2 ∧ w2.apply op = some w3 ∧
        w3.trace = w2.trace ++ [op.event] ++
          (if w2.emits op then List.replicate (OrdersService.new.ordersChanged.length + 1)
            (Event.setBadge "rules" (QString.number w3.count)) else []) :=
  subscription_survives_stop fullRegistry acceptingMenu OrdersService.new [] rfl rfl


/-- With both collaborators present, one `start()` on an initialized plugin:
the store it seeds is the old one, possibly with one more subscriber; the added
events hold the two creates, the two route registrations and one `registerItem`. -/
theorem start_with_collaborators (registry : ServiceRegistry) (nav : INavigation)
    (menu : IMenu) (s : OrdersService) (t : List Event)
    (hnav : registry.navigation = some nav) (hmenu : registry.menu = some menu) :
    ∃ (s1 : OrdersService) (ev : List Event), start (World.mk2 registry s t) =
        some (true, World.mk2 registry ((s1.insert ruleA).insert ruleB) (t ++ ev)) ∧
      s1.orders = s.orders ∧
      createCalls ev = [ruleA, ruleB] ∧
      ev.filter Event.isRegisterRoute =
        [Event.registerRoute "rules" "qrc:/Biiz/Rules/qml/OrdersPage.qml",
         Event.registerRoute "rules/detail" "qrc:/Biiz/Rules/qml/OrderDetailPage.qml"] ∧
      ev.filter Event.isRegisterItem = [Event.registerItem rulesMenuItem] ∧
      (menuAccepts registry menu (World.mk2 registry s t) = true →
        s1.ordersChanged = s.ordersChanged ++ [.updateBadge]) := by
  rcases registry with ⟨n, m⟩
  simp only at hnav hmenu
  subst hnav hmenu
  cases hacc : menuAccepts ⟨some nav, some menu⟩ menu (World.mk2 ⟨some nav, some menu⟩ s t) with
  | false =>
    refine ⟨s, [Event.log .info "RulesPlugin" "Starting..."] ++
        navigationEvents ⟨some nav, some menu⟩ ++
        [Event.registerItem rulesMenuItem,
         Event.log .warning "RulesPlugin" "Failed to register menu item"] ++
        seedingEvents s, ?_, rfl, ?_, ?_, ?_, ?_⟩
    · rw [start_rejected _ menu s t rfl hacc]
      simp
    · simp [createCalls_append, createCalls_seedingEvents, createCalls_badgeEvents,
        navigationEvents, createCalls]
    · simp [navigationEvents, seedingEvents, List.filter_append, filter_badgeEvents,
        Event.isRegisterRoute, List.filter_cons]
    · simp [navigationEvents, seedingEvents, List.filter_append, filter_badgeEvents,
        Event.isRegisterItem, List.filter_cons]
    · intro h; cases h
  | true =>
    refine ⟨s.connect .updateBadge, [Event.log .info "RulesPlugin" "Starting..."] ++
        navigationEvents ⟨some nav, some menu⟩ ++
        [Event.registerItem rulesMenuItem,
         Event.setBadge "rules" (QString.number s.getOrderCount),
         Event.log .debug "RulesPlugin" "Registered menu item"] ++
        seedingEvents (s.connect .updateBadge), ?_, rfl, ?_, ?_, ?_, ?_⟩
    · rw [start_accepted _ menu s t rfl hacc]
      simp
    · simp [createCalls_append, createCalls_seedingEvents, createCalls_badgeEvents,
        navigationEvents, createCalls]
    · simp [navigationEvents, seedingEvents, List.filter_append, filter_badgeEvents,
        Event.isRegisterRoute, List.filter_cons]
    · simp [navigationEvents, seedingEvents, List.filter_append, filter_badgeEvents,
        Event.isRegisterItem, List.filter_cons]
    · intro _; rfl

/-- C10: `start()` is not idempotent.  With both collaborators present, a second
`start()` on the same plugin creates two further demonstration entities (the
count grows by 4 over the two starts), and repeats both `registerRoute` calls
and the `registerItem` call.  If the plugin had no subscriber before and
`registerItem` succeeds both times, the store ends with two badge subscribers,
and every later store request that changes the store is followed by two
`setBadge` calls carrying the same new count, where after one `start()` it
was followed by one. -/
theorem start_not_idempotent (registry : ServiceRegistry) (nav : INavigation)
    (menu : IMenu) (s : OrdersService) (t : List Event)
    (hnav : registry.navigation = some nav) (hmenu : registry.menu = some menu) :
    ∃ w1 w2 ev, start (World.mk2 registry s t) = some (true, w1) ∧
      start w1 = some (true, w2) ∧
      w2.trace = w1.trace ++ ev ∧
      w1.count = (World.mk2 registry s t).count + 2 ∧
      w2.count = (World.mk2 registry s t).count + 4 ∧
      createCalls ev = [ruleA, ruleB] ∧
      ev.filter Event.isRegisterRoute =
        [Event.registerRoute "rules" "qrc:/Biiz/Rules/qml/OrdersPage.qml",
         Event.registerRoute "rules/detail" "qrc:/Biiz/Rules/qml/OrderDetailPage.qml"] ∧
      ev.filter Event.isRegisterItem = [Event.registerItem rulesMenuItem] ∧
      (s.ordersChanged = [] →
        menuAccepts registry menu (World.mk2 registry s t) = true →
        menuAccepts registry menu w1 = true →
        w1.subscribers = [.updateBadge] ∧
        w2.subscribers = [.updateBadge, .updateBadge] ∧
        (∀ (ops : List StoreOp) (op : StoreOp), ∃ w3 w4,
          w1.applyAll ops = some w3 ∧ w3.apply op = some w4 ∧
          w4.trace = w3.trace ++ [op.event] ++
            (if w3.emits op then [Event.setBadge "rules" (QString.number w4.count)]
             else [])) ∧
        (∀ (ops : List StoreOp) (op : StoreOp), ∃ w3 w4,
          w2.applyAll ops = some w3 ∧ w3.apply op = some w4 ∧
          w4.trace = w3.trace ++ [op.event] ++
            (if w3.emits op then
              [Event.setBadge "rules" (QString.number w4.count),
               Event.setBadge "rules" (QString.number w4.count)]
             else []))) := by
  obtain ⟨s1, ev1, h1, ho1, -, -, -, hsub1⟩ :=
    start_with_collaborators registry nav menu s t hnav hmenu
  obtain ⟨s2, ev2, h2, ho2, hc2, hr2, hi2, hsub2⟩ :=
    start_with_collaborators registry nav menu ((s1.insert ruleA).insert ruleB) (t ++ ev1)
      hnav hmenu
  refine ⟨_, _, ev2, h1, h2, rfl, ?_, ?_, hc2, hr2, hi2, ?_⟩
  · simp [World.count, World.mk2, OrdersService.insert, OrdersService.getOrderCount, ho1]
  · simp [World.count, World.mk2, OrdersService.insert, OrdersService.getOrderCount, ho1, ho2]
  · intro hs hacc1 hacc2
    have e1 : ((s1.insert ruleA).insert ruleB).ordersChanged = [.updateBadge] := by
      have := hsub1 hacc1
      simpa [OrdersService.insert, hs] using this
    have e2 : ((s2.insert ruleA).insert ruleB).ordersChanged = [.updateBadge, .updateBadge] := by
      have := hsub2 hacc2
      rw [e1] at this
      simpa [OrdersService.insert] using this
    refine ⟨e1, e2, ?_, ?_⟩
    · intro ops op
      have h := apply_after_applyAll (some registry) ((s1.insert ruleA).insert ruleB)
        (t ++ ev1) ops op
      rw [e1] at h
      exact h
    · intro ops op
      have h := apply_after_applyAll (some registry) ((s2.insert ruleA).insert ruleB)
        (t ++ ev1 ++ ev2) ops op
      rw [e2] at h
      exact h

/-- Witness for C10: a freshly initialized plugin with navigation and an
accepting menu, started twice: count 4 and two subscribers. -/
theorem start_not_idempotent_witness :
    ∃ w1 w2, start (freshWorld fullRegistry) = some (true, w1) ∧
      start w1 = some (true, w2) ∧ w1.count = 2 ∧ w2.count = 4 ∧
      w1.subscribers = [.updateBadge] ∧ w2.subscribers = [.updateBadge, .updateBadge] := by
  obtain ⟨w1, w2, ev, h1, h2, -, hc1, hc2, -, -, -, h⟩ :=
    start_not_idempotent fullRegistry .mk acceptingMenu OrdersService.new
      (freshWorld fullRegistry).trace rfl rfl
  obtain ⟨hs1, hs2, -, -⟩ := h rfl rfl rfl
  exact ⟨w1, w2, h1, h2, hc1, hc2, hs1, hs2⟩

end rules
